import Mathlib

/-!
Verification development for the WeatherDataAnalyst repository.

The Python sources are shallowly embedded below:
* `src/weatherDataAnalyst.py` — the scoring functions `calculate_comfort_index`
  (with its five local factor scores) and `calculate_city_comfort_index`;
* `src/weatherDataCollector.py` — `clean_hourly_data`, the retrying fetcher
  `fetch_weather_open_meteo`, and the result-collection loop of `main`.

Python floats are modelled as rationals (all constants involved are exact),
nullable JSON numbers as `Option ℚ`, timestamps as the ISO strings the API
returns, and exceptions as `Except` values.  Definitions prefixed with
`spec_` translate formulas of the natural-language specification, to be
compared against the source functions.
-/

/-- One cleaned observation row, as built by `clean_hourly_data`
(`src/weatherDataCollector.py`): `temperature_2m` and `relative_humidity_2m`
are validated non-null, the other three measurements stay optional. -/
structure CleanedRow where
  time : String
  temperature_2m : ℚ
  relative_humidity_2m : ℚ
  precipitation : Option ℚ
  wind_speed_10m : Option ℚ
  cloud_cover : Option ℚ
  deriving DecidableEq, Repr

/-- Temperature bucket of `calculate_comfort_index`
(`src/weatherDataAnalyst.py` lines 99-107): the local variable `temp_score`. -/
def temp_score (temperature : ℚ) : ℚ :=
  if 18 ≤ temperature ∧ temperature ≤ 24 then 25
  else if (15 ≤ temperature ∧ temperature < 18) ∨ (24 < temperature ∧ temperature ≤ 27) then 15
  else if (10 ≤ temperature ∧ temperature < 15) ∨ (27 < temperature ∧ temperature ≤ 30) then 5
  else 0

/-- Humidity bucket of `calculate_comfort_index` (lines 109-117). -/
def humidity_score (humidity : ℚ) : ℚ :=
  if 40 ≤ humidity ∧ humidity ≤ 60 then 25
  else if (30 ≤ humidity ∧ humidity < 40) ∨ (60 < humidity ∧ humidity ≤ 70) then 15
  else if (20 ≤ humidity ∧ humidity < 30) ∨ (70 < humidity ∧ humidity ≤ 80) then 5
  else 0

/-- Wind bucket of `calculate_comfort_index` (lines 119-125). -/
def wind_score (wind_speed : ℚ) : ℚ :=
  if wind_speed ≤ 10 then 20
  else if wind_speed ≤ 15 then 10
  else 0

/-- Precipitation bucket of `calculate_comfort_index` (lines 127-133).
The Python guard is `precipitation == 0 or precipitation is None`; every
caller substitutes `or 0` first, so the argument is a plain number here. -/
def precip_score (precipitation : ℚ) : ℚ :=
  if precipitation = 0 then 15
  else if precipitation < 1 then 8
  else 0

/-- Cloud-cover bucket of `calculate_comfort_index` (lines 135-141). -/
def cloud_score (cloud_cover : ℚ) : ℚ :=
  if cloud_cover ≤ 30 then 15
  else if cloud_cover ≤ 60 then 8
  else 0

/-- `calculate_comfort_index` from `src/weatherDataAnalyst.py` (lines 85-144):
the five bucket scores are computed into locals and summed. -/
def calculate_comfort_index (temperature humidity wind_speed precipitation cloud_cover : ℚ) : ℚ :=
  temp_score temperature + humidity_score humidity + wind_score wind_speed
    + precip_score precipitation + cloud_score cloud_cover

/-- The per-row score computed inside the loop of `calculate_city_comfort_index`
(lines 154-162): optional measurements default to 0 via Python's `or 0`. -/
def row_score (row : CleanedRow) : ℚ :=
  calculate_comfort_index row.temperature_2m row.relative_humidity_2m
    (row.wind_speed_10m.getD 0) (row.precipitation.getD 0) (row.cloud_cover.getD 0)

/-- `calculate_city_comfort_index` from `src/weatherDataAnalyst.py`
(lines 146-164): 0 on the empty list, otherwise the mean of the row scores. -/
def calculate_city_comfort_index (cleaned_rows : List CleanedRow) : ℚ :=
  if cleaned_rows = [] then 0
  else (cleaned_rows.map row_score).sum / cleaned_rows.length

/-- `clean_hourly_data` from `src/weatherDataCollector.py` (lines 109-156,
identical copy in `src/weatherDataAnalyst.py` lines 208-255).  The Python
iterates `i` over `range(min_len)` of the six parallel sequences and skips a
row when temperature or humidity is `None`; that index loop is embedded as
parallel structural recursion over the six lists, which stops exactly at the
minimum length. -/
def clean_hourly_data :
    List String → List (Option ℚ) → List (Option ℚ) → List (Option ℚ) →
      List (Option ℚ) → List (Option ℚ) → List CleanedRow
  | t :: times, some temp :: temps, some hum :: hums, pr :: precip, ws :: wind, cc :: cloud =>
      { time := t, temperature_2m := temp, relative_humidity_2m := hum,
        precipitation := pr, wind_speed_10m := ws, cloud_cover := cc }
        :: clean_hourly_data times temps hums precip wind cloud
  | _ :: times, none :: temps, _ :: hums, _ :: precip, _ :: wind, _ :: cloud =>
      clean_hourly_data times temps hums precip wind cloud
  | _ :: times, some _ :: temps, none :: hums, _ :: precip, _ :: wind, _ :: cloud =>
      clean_hourly_data times temps hums precip wind cloud
  | [], _, _, _, _, _ => []
  | _ :: _, [], _, _, _, _ => []
  | _ :: _, _ :: _, [], _, _, _ => []
  | _ :: _, _ :: _, _ :: _, [], _, _ => []
  | _ :: _, _ :: _, _ :: _, _ :: _, [], _ => []
  | _ :: _, _ :: _, _ :: _, _ :: _, _ :: _, [] => []

/-- The minimum length across the six parallel hourly sequences, the
`min_len` local of `clean_hourly_data`. -/
def hourly_min_len (times temps hums precip wind cloud : ℕ) : ℕ :=
  min times (min temps (min hums (min precip (min wind cloud))))

/-- The indices `i < min_len` skipped by `clean_hourly_data` because
`temps[i] is None or hums[i] is None`, counted over the first `min_len`
entries of the temperature and humidity sequences. -/
def dropped_count (m : ℕ) (temps hums : List (Option ℚ)) : ℕ :=
  ((temps.take m).zip (hums.take m)).countP fun q => q.1.isNone || q.2.isNone

/-- One entry of the `cleaned_data` aggregate assembled by `main` in
`src/weatherDataCollector.py`: a city's metadata (reduced to the city name)
with its cleaned rows. -/
structure CityBlock where
  city : String
  cleaned_hourly_rows : List CleanedRow
  deriving DecidableEq, Repr

/-- The result-collection loop of `main` in `src/weatherDataCollector.py`
(lines 196-214).  Each per-city unit of work (`fetch_clean_and_save`, run by
the worker pool) is represented by its outcome: `Except.ok` carries the
`(cleaned, raw)` pair the future returned, `Except.error` the message of the
exception it raised.  The loop appends successes to `cleaned_data` and
`all_data` and, for each failure, prints one error line; no exception
propagates out of the loop. -/
def collect_results (outcomes : List (Except String (CityBlock × String))) :
    List CityBlock × List String × List String :=
  match outcomes with
  | [] => ([], [], [])
  | o :: rest =>
      let acc := collect_results rest
      match o with
      | Except.ok (cleaned, raw) => (cleaned :: acc.1, raw :: acc.2.1, acc.2.2)
      | Except.error e => (acc.1, acc.2.1, ("Błąd pobierania miasta: " ++ e) :: acc.2.2)

/-- One network response as seen by one HTTP attempt of the fetcher: either a
transport-level failure of `session.get`, or an HTTP response with a status
code and an abstract payload identifier. -/
inductive Attempt where
  | transport_error : Attempt
  | http : ℕ → ℕ → Attempt
  deriving DecidableEq, Repr

/-- How a single `session.get(...)` / `raise_for_status()` call fails in
`fetch_weather_open_meteo`: transport retries exhausted, retries exhausted on
a retryable status (urllib3 `MaxRetryError`), or a non-retryable HTTP error
status (`requests.HTTPError`).  No variant names the city: the source defines
no `FetchError` class and attaches no city information. -/
inductive FetchFailure where
  | transport_exhausted : FetchFailure
  | retries_exhausted : ℕ → FetchFailure
  | http_error : ℕ → FetchFailure
  deriving DecidableEq, Repr

/-- The `status_forcelist=[429, 500, 502, 503, 504]` of the urllib3 `Retry`
configured in `fetch_weather_open_meteo` (`src/weatherDataCollector.py`
lines 55-64). -/
def retryable_status (s : ℕ) : Bool :=
  s = 429 || s = 500 || s = 502 || s = 503 || s = 504

/-- One `session.get(url, ...)` through the `HTTPAdapter(max_retries=Retry(
total=3, backoff_factor=1, status_forcelist=...))` mounted in
`fetch_weather_open_meteo`.  The network is a function from attempt index to
response; `i` is the index of the next attempt and `fuel` the number of
attempts still allowed (`total=3` retries gives 4 attempts per call, with
backoff sleeps of 1s, 2s, 4s between them).  Returns the outcome — `ok` with
the index of the successful attempt after `raise_for_status`, or the raised
failure — together with the index of the next unconsumed attempt. -/
def session_get (net : ℕ → Attempt) : ℕ → ℕ → Except FetchFailure ℕ × ℕ
  | i, 0 => (Except.error FetchFailure.transport_exhausted, i)
  | i, fuel + 1 =>
      match net i with
      | Attempt.transport_error =>
          if fuel = 0 then (Except.error FetchFailure.transport_exhausted, i + 1)
          else session_get net (i + 1) fuel
      | Attempt.http s _ =>
          if retryable_status s then
            if fuel = 0 then (Except.error (FetchFailure.retries_exhausted s), i + 1)
            else session_get net (i + 1) fuel
          else if s < 400 then (Except.ok i, i + 1)
          else (Except.error (FetchFailure.http_error s), i + 1)

/-- `fetch_weather_open_meteo` from `src/weatherDataCollector.py`
(lines 29-74).  The `days` parameter goes into the request parameters
unvalidated.  The body is `try: session.get(...); raise_for_status()` —
a first call with up to 3 retries — and on any exception whatsoever an
`except` that sleeps 3 seconds and repeats the same call once more (again
with up to 3 retries), letting that second call's exception propagate.
Returns the outcome together with the list of issued requests, one
`forecast_days` value per HTTP attempt. -/
def fetch_weather_open_meteo (days : ℤ) (net : ℕ → Attempt) :
    Except FetchFailure ℕ × List ℤ :=
  match session_get net 0 4 with
  | (Except.ok v, j) => (Except.ok v, List.replicate j days)
  | (Except.error _, j) =>
      match session_get net j 4 with
      | (r2, k) => (r2, List.replicate k days)

/-- The spec's clamp to the unit interval. -/
def spec_clamp01 (x : ℚ) : ℚ := max 0 (min 1 x)

/-- The spec's factor-score formula:
`score(x, optimum, tolerance) = clamp(1 - |x - optimum| / tolerance, 0, 1)`. -/
def spec_factor_score (x optimum tolerance : ℚ) : ℚ :=
  spec_clamp01 (1 - |x - optimum| / tolerance)

/-- The spec's seasonal optimum/tolerance table for the temperature factor:
northern hemisphere (latitude ≥ 0) uses winter months {12,1,2} ↦ (10, 8),
summer months {6,7,8} ↦ (22, 10), shoulder months ↦ (15, 10); the southern
hemisphere swaps the winter and summer month sets. -/
def spec_temp_params (latitude : ℚ) (month : ℕ) : ℚ × ℚ :=
  if 0 ≤ latitude then
    if month = 12 ∨ month = 1 ∨ month = 2 then (10, 8)
    else if month = 6 ∨ month = 7 ∨ month = 8 then (22, 10)
    else (15, 10)
  else
    if month = 6 ∨ month = 7 ∨ month = 8 then (10, 8)
    else if month = 12 ∨ month = 1 ∨ month = 2 then (22, 10)
    else (15, 10)

/-- The spec's seasonal, hemisphere-aware temperature score. -/
def spec_temperature_score (latitude : ℚ) (month : ℕ) (t : ℚ) : ℚ :=
  spec_factor_score t (spec_temp_params latitude month).1 (spec_temp_params latitude month).2

/-- Hour-of-day of an ISO-8601 local timestamp string `YYYY-MM-DDTHH:MM`, the
"local hour-of-day" the spec's daytime window [7, 22] is stated over (the
cleaned rows carry such strings in their `time` field). -/
def spec_local_hour (t : String) : ℕ :=
  match t.toList.drop 11 with
  | c1 :: c2 :: _ => (c1.toNat - 48) * 10 + (c2.toNat - 48)
  | _ => 24

/-- A network whose first four responses are HTTP 500 and whose fifth
response is HTTP 200: the first `session.get` call exhausts its retries. -/
def net_five_hundreds : ℕ → Attempt :=
  fun i => if i < 4 then Attempt.http 500 0 else Attempt.http 200 7

/-- A network that answers every attempt with HTTP 200. -/
def net_ok : ℕ → Attempt := fun _ => Attempt.http 200 7

/-- A refresh cycle over 15 city units of which exactly 2 raised. -/
def outcomes₀ : List (Except String (CityBlock × String)) :=
  Except.error "HTTPSConnectionPool: read timed out"
    :: Except.error "500 Server Error"
    :: List.replicate 13 (Except.ok ({ city := "Warsaw", cleaned_hourly_rows := [] }, "raw"))

/-- A cleaned row observed at local hour 3 (nighttime per the spec). -/
def night_row : CleanedRow :=
  { time := "2026-02-01T03:00", temperature_2m := 20, relative_humidity_2m := 50,
    precipitation := some 0, wind_speed_10m := some 5, cloud_cover := some 10 }

/-- A cleaned row observed at local hour 12 (daytime per the spec). -/
def day_row : CleanedRow :=
  { time := "2026-02-01T12:00", temperature_2m := 0, relative_humidity_2m := 50,
    precipitation := some 0, wind_speed_10m := some 0, cloud_cover := some 0 }

/-!  ## Helper lemmas about the scoring buckets  -/

lemma temp_score_bounds (t : ℚ) : 0 ≤ temp_score t ∧ temp_score t ≤ 25 := by
  unfold temp_score; split_ifs <;> norm_num

lemma humidity_score_bounds (h : ℚ) : 0 ≤ humidity_score h ∧ humidity_score h ≤ 25 := by
  unfold humidity_score; split_ifs <;> norm_num

lemma wind_score_bounds (w : ℚ) : 0 ≤ wind_score w ∧ wind_score w ≤ 20 := by
  unfold wind_score; split_ifs <;> norm_num

lemma precip_score_bounds (p : ℚ) : 0 ≤ precip_score p ∧ precip_score p ≤ 15 := by
  unfold precip_score; split_ifs <;> norm_num

lemma cloud_score_bounds (c : ℚ) : 0 ≤ cloud_score c ∧ cloud_score c ≤ 15 := by
  unfold cloud_score; split_ifs <;> norm_num

lemma calculate_comfort_index_nonneg (t h w p c : ℚ) :
    0 ≤ calculate_comfort_index t h w p c := by
  have h1 := temp_score_bounds t
  have h2 := humidity_score_bounds h
  have h3 := wind_score_bounds w
  have h4 := precip_score_bounds p
  have h5 := cloud_score_bounds c
  unfold calculate_comfort_index
  linarith [h1.1, h2.1, h3.1, h4.1, h5.1]

lemma row_score_nonneg (r : CleanedRow) : 0 ≤ row_score r :=
  calculate_comfort_index_nonneg _ _ _ _ _

/-!  ## Claim C1  -/

/-- Claim C1, counterexample: the comfort index of a calm clear 20°C, 50%
humidity observation is 100, not a weighted sum bounded in [0, 1]. -/
theorem comfort_index_exceeds_unit_interval :
    calculate_comfort_index 20 50 5 0 10 = 100
      ∧ ¬ calculate_comfort_index 20 50 5 0 10 ≤ 1 := by
  norm_num [calculate_comfort_index, temp_score, humidity_score, wind_score,
    precip_score, cloud_score]

/-- Claim C1 as amended: the comfort index is the plain (unweighted) sum of
the five bucketed factor scores, and is therefore bounded in [0, 100], not
[0, 1]. -/
theorem comfort_index_bucket_sum_bounds (t h w p c : ℚ) :
    calculate_comfort_index t h w p c
        = temp_score t + humidity_score h + wind_score w + precip_score p + cloud_score c
      ∧ 0 ≤ calculate_comfort_index t h w p c
      ∧ calculate_comfort_index t h w p c ≤ 100 := by
  refine ⟨rfl, calculate_comfort_index_nonneg t h w p c, ?_⟩
  have h1 := temp_score_bounds t
  have h2 := humidity_score_bounds h
  have h3 := wind_score_bounds w
  have h4 := precip_score_bounds p
  have h5 := cloud_score_bounds c
  unfold calculate_comfort_index
  linarith [h1.2, h2.2, h3.2, h4.2, h5.2]

/-!  ## Claim C2  -/

/-- Claim C2, counterexample: at the humidity optimum 50 the code's factor
score is 25, not `clamp(1 - |50 - 50| / 30, 0, 1) = 1.0`, and precipitation
exactly 0 scores 15, not 1.0. -/
theorem factor_scores_not_clamped_linear :
    humidity_score 50 = 25 ∧ spec_factor_score 50 50 30 = 1
      ∧ humidity_score 50 ≠ spec_factor_score 50 50 30
      ∧ precip_score 0 = 15 ∧ precip_score 0 ≠ 1 := by
  norm_num [humidity_score, precip_score, spec_factor_score, spec_clamp01]

/-- Claim C2 as amended: each factor score is a bucketed step function, not
the clamped-linear formula: humidity scores 25 exactly on [40, 60] with
values in {0, 5, 15, 25}; wind scores 20 exactly when ≤ 10 with values in
{0, 10, 20}; precipitation scores 15 exactly at 0 with values in {0, 8, 15};
cloud cover scores 15 exactly when ≤ 30 with values in {0, 8, 15}. -/
theorem factor_scores_bucketed (h w p c : ℚ) :
    (humidity_score h = 25 ↔ 40 ≤ h ∧ h ≤ 60)
      ∧ (humidity_score h = 0 ∨ humidity_score h = 5
          ∨ humidity_score h = 15 ∨ humidity_score h = 25)
      ∧ (wind_score w = 20 ↔ w ≤ 10)
      ∧ (wind_score w = 0 ∨ wind_score w = 10 ∨ wind_score w = 20)
      ∧ (precip_score p = 15 ↔ p = 0)
      ∧ (precip_score p = 0 ∨ precip_score p = 8 ∨ precip_score p = 15)
      ∧ (cloud_score c = 15 ↔ c ≤ 30)
      ∧ (cloud_score c = 0 ∨ cloud_score c = 8 ∨ cloud_score c = 15) := by
  refine ⟨?_, ?_, ?_, ?_, ?_, ?_, ?_, ?_⟩ <;>
    simp only [humidity_score, wind_score, precip_score, cloud_score] <;>
    split_ifs <;> norm_num <;> first | tauto | linarith | (push_neg at *; tauto)

/-!  ## Claim C3  -/

/-- Claim C3, counterexample: at latitude 52 in January the spec's seasonal
score is maximal at 10°C and zero at 21°C, but the code's temperature bucket
(which takes neither month nor latitude) scores 10°C as 5 and 21°C as 25 —
the opposite order, so it is not the seasonal clamped-linear score. -/
theorem temp_score_not_seasonal :
    spec_temperature_score 52 1 10 = 1 ∧ spec_temperature_score 52 1 21 = 0
      ∧ temp_score 10 = 5 ∧ temp_score 21 = 25
      ∧ temp_score 10 ≠ spec_temperature_score 52 1 10
      ∧ spec_temperature_score 52 1 21 < spec_temperature_score 52 1 10
      ∧ temp_score 10 < temp_score 21 := by
  norm_num [spec_temperature_score, spec_temp_params, spec_factor_score, spec_clamp01,
    temp_score]

/-- Claim C3 as amended: the temperature factor score is a fixed bucket
function of the temperature alone — the function takes no month or latitude
input, so no seasonal or hemisphere selection happens; it is maximal (25)
exactly on [18, 24] and takes only the values {0, 5, 15, 25}. -/
theorem temp_score_month_independent_buckets (t : ℚ) :
    (temp_score t = 25 ↔ 18 ≤ t ∧ t ≤ 24)
      ∧ (temp_score t = 0 ∨ temp_score t = 5 ∨ temp_score t = 15 ∨ temp_score t = 25) := by
  constructor
  · unfold temp_score; split_ifs <;> norm_num <;> first | tauto | linarith | (push_neg at *; tauto)
  · unfold temp_score; split_ifs <;> norm_num

/-!  ## Claim C10  -/

/-- Claim C10: on the empty list of cleaned rows the per-city mean comfort
function returns 0 rather than failing, and 0 is a lower bound of every
city's mean score, so such a city still appears in the descending ranking,
placed (weakly) last rather than excluded. -/
theorem empty_city_scores_zero_and_minimal :
    calculate_city_comfort_index [] = 0
      ∧ ∀ rows : List CleanedRow,
          calculate_city_comfort_index [] ≤ calculate_city_comfort_index rows := by
  have h0 : calculate_city_comfort_index [] = 0 := by
    simp [calculate_city_comfort_index]
  refine ⟨h0, fun rows => ?_⟩
  rw [h0]
  unfold calculate_city_comfort_index
  split_ifs with h
  · exact le_refl 0
  · apply div_nonneg
    · apply List.sum_nonneg
      intro x hx
      obtain ⟨r, _, rfl⟩ := List.mem_map.mp hx
      exact row_score_nonneg r
    · exact_mod_cast Nat.zero_le rows.length

/-!  ## Helper lemmas about the cleaner  -/

lemma hourly_min_len_succ (a b c d e f : ℕ) :
    hourly_min_len (a + 1) (b + 1) (c + 1) (d + 1) (e + 1) (f + 1)
      = hourly_min_len a b c d e f + 1 := by
  simp [hourly_min_len, Nat.succ_min_succ]

lemma dropped_count_cons (m : ℕ) (x y : Option ℚ) (temps hums : List (Option ℚ)) :
    dropped_count (m + 1) (x :: temps) (y :: hums)
      = dropped_count m temps hums + if (x.isNone || y.isNone) = true then 1 else 0 := by
  simp [dropped_count, List.take_succ_cons, List.zip_cons_cons, List.countP_cons]

lemma dropped_count_le (m : ℕ) (temps hums : List (Option ℚ)) :
    dropped_count m temps hums ≤ m := by
  refine le_trans (List.countP_le_length _) ?_
  simp only [List.length_zip, List.length_take]
  omega

lemma clean_length_add (ts : List String) :
    ∀ temps hums prs wss ccs,
      (clean_hourly_data ts temps hums prs wss ccs).length
          + dropped_count
              (hourly_min_len ts.length temps.length hums.length prs.length wss.length ccs.length)
              temps hums
        = hourly_min_len ts.length temps.length hums.length prs.length wss.length ccs.length := by
  induction ts with
  | nil =>
      intro temps hums prs wss ccs
      simp [clean_hourly_data, hourly_min_len, dropped_count]
  | cons t ts ih =>
      intro temps hums prs wss ccs
      match temps, hums, prs, wss, ccs with
      | [], _, _, _, _ => simp [clean_hourly_data, hourly_min_len, dropped_count]
      | _ :: _, [], _, _, _ => simp [clean_hourly_data, hourly_min_len, dropped_count]
      | _ :: _, _ :: _, [], _, _ => simp [clean_hourly_data, hourly_min_len, dropped_count]
      | _ :: _, _ :: _, _ :: _, [], _ => simp [clean_hourly_data, hourly_min_len, dropped_count]
      | _ :: _, _ :: _, _ :: _, _ :: _, [] => simp [clean_hourly_data, hourly_min_len, dropped_count]
      | temp :: temps, hum :: hums, pr :: prs, ws :: wss, cc :: ccs =>
          have hlen := List.length_cons temp temps
          have key := ih temps hums prs wss ccs
          have hdle := dropped_count_le
            (hourly_min_len ts.length temps.length hums.length prs.length wss.length ccs.length)
            temps hums
          match temp, hum with
          | some tv, some hv =>
              simp only [clean_hourly_data, List.length_cons, hourly_min_len_succ,
                dropped_count_cons, Option.isNone_some, Bool.or_self, if_neg]
              simp only [Bool.or_self, Bool.false_eq_true, if_false, add_zero] at *
              omega
          | none, _ =>
              simp only [clean_hourly_data, List.length_cons, hourly_min_len_succ,
                dropped_count_cons, Option.isNone_none, Bool.true_or, if_pos]
              omega
          | some tv, none =>
              simp only [clean_hourly_data, List.length_cons, hourly_min_len_succ,
                dropped_count_cons, Option.isNone_none, Option.isNone_some, Bool.or_true, if_pos]
              omega

lemma clean_times_sublist (ts : List String) :
    ∀ temps hums prs wss ccs,
      ((clean_hourly_data ts temps hums prs wss ccs).map (fun r => r.time)).Sublist ts := by
  induction ts with
  | nil =>
      intro temps hums prs wss ccs
      simp [clean_hourly_data]
  | cons t ts ih =>
      intro temps hums prs wss ccs
      match temps, hums, prs, wss, ccs with
      | [], _, _, _, _ => simp [clean_hourly_data]
      | _ :: _, [], _, _, _ => simp [clean_hourly_data]
      | _ :: _, _ :: _, [], _, _ => simp [clean_hourly_data]
      | _ :: _, _ :: _, _ :: _, [], _ => simp [clean_hourly_data]
      | _ :: _, _ :: _, _ :: _, _ :: _, [] => simp [clean_hourly_data]
      | temp :: temps, hum :: hums, pr :: prs, ws :: wss, cc :: ccs =>
          match temp, hum with
          | some tv, some hv =>
              simpa [clean_hourly_data] using (ih temps hums prs wss ccs).cons₂ t
          | none, _ =>
              simpa [clean_hourly_data] using (ih temps hums prs wss ccs).cons t
          | some tv, none =>
              simpa [clean_hourly_data] using (ih temps hums prs wss ccs).cons t

/-!  ## Claim C5  -/

/-- Claim C5: the cleaner's output length equals the minimum length across
the six parallel sequences minus the number of indices in that range whose
temperature or humidity is null, and the output preserves the chronological
order of the source (its timestamps form a sublist of the input times). -/
theorem clean_hourly_length_and_order
    (ts : List String) (temps hums prs wss ccs : List (Option ℚ)) :
    (clean_hourly_data ts temps hums prs wss ccs).length
        = hourly_min_len ts.length temps.length hums.length prs.length wss.length ccs.length
          - dropped_count
              (hourly_min_len ts.length temps.length hums.length prs.length wss.length ccs.length)
              temps hums
      ∧ ((clean_hourly_data ts temps hums prs wss ccs).map (fun r => r.time)).Sublist ts := by
  refine ⟨?_, clean_times_sublist ts temps hums prs wss ccs⟩
  have h := clean_length_add ts temps hums prs wss ccs
  omega

/-!  ## Claim C6  -/

/-- Claim C6: every row the cleaner produces takes its values verbatim from
one source index — temperature and humidity from non-null (`some`) entries,
and the three optional measurements carried through unchanged, so a null
stays null at clean time — while the substitution of 0 for those nulls
happens only in the scoring function `calculate_city_comfort_index`, whose
per-row score defaults each optional field to 0. -/
theorem clean_rows_preserve_nulls :
    (∀ (ts : List String) (temps hums prs wss ccs : List (Option ℚ)) (r : CleanedRow),
        r ∈ clean_hourly_data ts temps hums prs wss ccs →
          ∃ i : ℕ, ts[i]? = some r.time
            ∧ temps[i]? = some (some r.temperature_2m)
            ∧ hums[i]? = some (some r.relative_humidity_2m)
            ∧ prs[i]? = some r.precipitation
            ∧ wss[i]? = some r.wind_speed_10m
            ∧ ccs[i]? = some r.cloud_cover)
      ∧ ∀ r : CleanedRow,
          row_score r = calculate_comfort_index r.temperature_2m r.relative_humidity_2m
            (r.wind_speed_10m.getD 0) (r.precipitation.getD 0) (r.cloud_cover.getD 0) := by
  constructor
  · intro ts
    induction ts with
    | nil =>
        intro temps hums prs wss ccs r hr
        simp [clean_hourly_data] at hr
    | cons t ts ih =>
        intro temps hums prs wss ccs r hr
        match temps, hums, prs, wss, ccs with
        | [], _, _, _, _ => simp [clean_hourly_data] at hr
        | _ :: _, [], _, _, _ => simp [clean_hourly_data] at hr
        | _ :: _, _ :: _, [], _, _ => simp [clean_hourly_data] at hr
        | _ :: _, _ :: _, _ :: _, [], _ => simp [clean_hourly_data] at hr
        | _ :: _, _ :: _, _ :: _, _ :: _, [] => simp [clean_hourly_data] at hr
        | temp :: temps, hum :: hums, pr :: prs, ws :: wss, cc :: ccs =>
            match temp, hum with
            | some tv, some hv =>
                rw [clean_hourly_data] at hr
                rcases List.mem_cons.mp hr with heq | htail
                · exact ⟨0, by subst heq; simp⟩
                · obtain ⟨i, hi⟩ := ih temps hums prs wss ccs r htail
                  exact ⟨i + 1, by simpa using hi⟩
            | none, _ =>
                rw [clean_hourly_data] at hr
                obtain ⟨i, hi⟩ := ih temps hums prs wss ccs r hr
                exact ⟨i + 1, by simpa using hi⟩
            | some tv, none =>
                rw [clean_hourly_data] at hr
                obtain ⟨i, hi⟩ := ih temps hums prs wss ccs r hr
                exact ⟨i + 1, by simpa using hi⟩
  · intro r
    rfl

/-- Witness for claim C6 at one concrete payload: a row cleaned from
sequences with null precipitation and wind keeps those nulls. -/
theorem clean_rows_preserve_nulls_witness :
    ∃ i : ℕ, (["2026-02-01T00:00"] : List String)[i]? = some "2026-02-01T00:00"
      ∧ ([some 20] : List (Option ℚ))[i]? = some (some 20)
      ∧ ([some 50] : List (Option ℚ))[i]? = some (some 50)
      ∧ ([none] : List (Option ℚ))[i]? = some none
      ∧ ([none] : List (Option ℚ))[i]? = some none
      ∧ ([some 30] : List (Option ℚ))[i]? = some (some 30) :=
  clean_rows_preserve_nulls.1 ["2026-02-01T00:00"] [some 20] [some 50] [none] [none] [some 30]
    { time := "2026-02-01T00:00", temperature_2m := 20, relative_humidity_2m := 50,
      precipitation := none, wind_speed_10m := none, cloud_cover := some 30 }
    (List.mem_singleton.mpr rfl)

/-!  ## Claim C7  -/

lemma collect_results_spec (outcomes : List (Except String (CityBlock × String))) :
    (collect_results outcomes).1
        = outcomes.filterMap (fun o => match o with
            | Except.ok p => some p.1
            | Except.error _ => none)
      ∧ (collect_results outcomes).2.1
        = outcomes.filterMap (fun o => match o with
            | Except.ok p => some p.2
            | Except.error _ => none)
      ∧ (collect_results outcomes).2.2
        = outcomes.filterMap (fun o => match o with
            | Except.ok _ => none
            | Except.error e => some ("Błąd pobierania miasta: " ++ e))
      ∧ (collect_results outcomes).1.length + (collect_results outcomes).2.2.length
          = outcomes.length := by
  induction outcomes with
  | nil => simp [collect_results]
  | cons o rest ih =>
      match o with
      | Except.ok p =>
          obtain ⟨h1, h2, h3, h4⟩ := ih
          refine ⟨?_, ?_, ?_, ?_⟩
          · simp [collect_results, List.filterMap_cons, h1]
          · simp [collect_results, List.filterMap_cons, h2]
          · simp [collect_results, List.filterMap_cons, h3]
          · simp only [collect_results, List.length_cons]; omega
      | Except.error e =>
          obtain ⟨h1, h2, h3, h4⟩ := ih
          refine ⟨?_, ?_, ?_, ?_⟩
          · simp [collect_results, List.filterMap_cons, h1]
          · simp [collect_results, List.filterMap_cons, h2]
          · simp [collect_results, List.filterMap_cons, h3]
          · simp only [collect_results, List.length_cons]; omega

/-- Claim C7: a failure raised inside one city's fetch-clean-persist unit is
absorbed by the collection loop — when k of the 15 units fail, the cleaned
and raw aggregates hold exactly the 15 − k successful cities' results (in
completion order), one error line is printed per failed unit, and the loop
itself is a total function of the outcomes, so no exception escapes the
refresh. -/
theorem collector_fault_isolation (outcomes : List (Except String (CityBlock × String)))
    (h15 : outcomes.length = 15) :
    (collect_results outcomes).1
        = outcomes.filterMap (fun o => match o with
            | Except.ok p => some p.1
            | Except.error _ => none)
      ∧ (collect_results outcomes).2.1
        = outcomes.filterMap (fun o => match o with
            | Except.ok p => some p.2
            | Except.error _ => none)
      ∧ (collect_results outcomes).2.2
        = outcomes.filterMap (fun o => match o with
            | Except.ok _ => none
            | Except.error e => some ("Błąd pobierania miasta: " ++ e))
      ∧ (collect_results outcomes).1.length = 15 - (collect_results outcomes).2.2.length
      ∧ (collect_results outcomes).2.2.length ≤ 15 := by
  obtain ⟨h1, h2, h3, h4⟩ := collect_results_spec outcomes
  exact ⟨h1, h2, h3, by omega, by omega⟩

/-- Witness for claim C7: with 2 of 15 concrete city units failing, the
cleaned aggregate has exactly 13 entries and 2 error lines are printed. -/
theorem collector_fault_isolation_witness :
    outcomes₀.length = 15
      ∧ (collect_results outcomes₀).1.length = 15 - (collect_results outcomes₀).2.2.length :=
  ⟨rfl, (collector_fault_isolation outcomes₀ rfl).2.2.2.1⟩

/-!  ## Helper lemmas about the fetcher  -/

lemma session_get_next_le (net : ℕ → Attempt) :
    ∀ fuel i, (session_get net i fuel).2 ≤ i + fuel := by
  intro fuel
  induction fuel with
  | zero => intro i; simp [session_get]
  | succ n ih =>
      intro i
      rw [session_get]
      cases net i with
      | transport_error =>
          by_cases hn : n = 0
          · simp [hn]
          · simp only [if_neg hn]
            have := ih (i + 1)
            omega
      | http s b =>
          by_cases hs : retryable_status s = true
          · by_cases hn : n = 0
            · simp [hs, hn]
            · simp only [hs, if_true, if_neg hn]
              have := ih (i + 1)
              omega
          · by_cases hlt : s < 400
            · simp [hs, hlt]
            · simp [hs, hlt]

lemma session_get_next_pos (net : ℕ → Attempt) :
    ∀ fuel i, 1 ≤ fuel → i < (session_get net i fuel).2 := by
  intro fuel
  induction fuel with
  | zero => intro i h; omega
  | succ n ih =>
      intro i _
      rw [session_get]
      cases net i with
      | transport_error =>
          by_cases hn : n = 0
          · simp [hn]
          · simp only [if_neg hn]
            have := ih (i + 1) (by omega)
            omega
      | http s b =>
          by_cases hs : retryable_status s = true
          · by_cases hn : n = 0
            · simp [hs, hn]
            · simp only [hs, if_true, if_neg hn]
              have := ih (i + 1) (by omega)
              omega
          · by_cases hlt : s < 400
            · simp [hs, hlt]
            · simp [hs, hlt]

lemma session_get_ok_net (net : ℕ → Attempt) :
    ∀ fuel i j, (session_get net i fuel).1 = Except.ok j →
      ∃ s b, net j = Attempt.http s b ∧ retryable_status s = false ∧ s < 400 := by
  intro fuel
  induction fuel with
  | zero => intro i j h; simp [session_get] at h
  | succ n ih =>
      intro i j h
      rw [session_get] at h
      cases hnet : net i with
      | transport_error =>
          rw [hnet] at h
          by_cases hn : n = 0
          · simp [hn] at h
          · simp only [if_neg hn] at h
            exact ih (i + 1) j h
      | http s b =>
          rw [hnet] at h
          by_cases hs : retryable_status s = true
          · by_cases hn : n = 0
            · simp [hs, hn] at h
            · simp only [hs, if_true, if_neg hn] at h
              exact ih (i + 1) j h
          · by_cases hlt : s < 400
            · simp only [hs, Bool.false_eq_true, if_false, if_pos hlt] at h
              obtain rfl : i = j := by simpa using h
              exact ⟨s, b, hnet, by simpa using hs, hlt⟩
            · simp [hs, hlt] at h

lemma fetch_weather_cases (days : ℤ) (net : ℕ → Attempt) :
    fetch_weather_open_meteo days net =
      match (session_get net 0 4).1 with
      | Except.ok v => (Except.ok v, List.replicate (session_get net 0 4).2 days)
      | Except.error _ =>
          ((session_get net (session_get net 0 4).2 4).1,
            List.replicate (session_get net (session_get net 0 4).2 4).2 days) := by
  unfold fetch_weather_open_meteo
  cases h1 : session_get net 0 4 with
  | mk r1 j =>
      cases r1 with
      | ok v => rfl
      | error f =>
          show (match session_get net j 4 with
                | (r2, k) => (r2, List.replicate k days))
              = ((session_get net j 4).1, List.replicate (session_get net j 4).2 days)
          cases h2 : session_get net j 4 with
          | mk r2 k => rfl

/-!  ## Claim C8  -/

/-- Claim C8, counterexample: on a network whose first four responses are
HTTP 500 the first `session.get` call does exhaust its 3 retries, yet the
fetch then succeeds — the bare `except` block sleeps and repeats the whole
call, which consumes a fifth attempt and returns the 200 payload.  The fetch
therefore neither fails after 3 retries nor raises any `FetchError`. -/
theorem fetch_succeeds_after_retries_exhausted :
    session_get net_five_hundreds 0 4
        = (Except.error (FetchFailure.retries_exhausted 500), 4)
      ∧ (fetch_weather_open_meteo 16 net_five_hundreds).1 = Except.ok 4
      ∧ (fetch_weather_open_meteo 16 net_five_hundreds).2.length = 5 :=
  ⟨rfl, rfl, rfl⟩

/-- Claim C8 as amended: each `session.get` call retries transport failures
and HTTP 429/500/502/503/504 up to 3 times with doubling backoff, and on any
failure of the first call — retry exhaustion or a non-retryable HTTP error —
the fetcher sleeps 3 seconds and issues the same call once more, so a fetch
makes at most 8 attempts in total; when it does succeed, the returned payload
comes from a genuine non-error HTTP response (never partial or empty data),
and when it fails the propagated exception carries the transport or status
cause but no city name and is not a `FetchError` (no such class exists). -/
theorem fetch_retry_behavior (days : ℤ) (net : ℕ → Attempt) :
    (fetch_weather_open_meteo days net).2.length ≤ 8
      ∧ ∀ i, (fetch_weather_open_meteo days net).1 = Except.ok i →
          ∃ s b, net i = Attempt.http s b ∧ retryable_status s = false ∧ s < 400 := by
  rw [fetch_weather_cases]
  cases h1 : session_get net 0 4 with
  | mk r1 j =>
      have hj : j ≤ 4 := by
        have := session_get_next_le net 4 0
        rw [h1] at this
        simpa using this
      cases r1 with
      | ok v =>
          dsimp only
          constructor
          · simp only [List.length_replicate]
            omega
          · intro i hi
            obtain rfl : v = i := by simpa using hi
            apply session_get_ok_net net 4 0
            rw [h1]
      | error f =>
          dsimp only
          cases h2 : session_get net j 4 with
          | mk r2 k =>
              have hk : k ≤ j + 4 := by
                have := session_get_next_le net 4 j
                rw [h2] at this
                simpa using this
              dsimp only
              constructor
              · simp only [List.length_replicate]
                omega
              · intro i hi
                apply session_get_ok_net net 4 j
                rw [h2]
                simpa using hi

/-- Witness for claim C8 on a healthy network: at most 8 attempts, and the
payload returned on success comes from a non-error HTTP response. -/
theorem fetch_retry_behavior_witness :
    (fetch_weather_open_meteo 3 net_ok).2.length ≤ 8
      ∧ ∃ s b, net_ok 0 = Attempt.http s b ∧ retryable_status s = false ∧ s < 400 :=
  ⟨(fetch_retry_behavior 3 net_ok).1, (fetch_retry_behavior 3 net_ok).2 0 rfl⟩

/-!  ## Claim C9  -/

/-- Claim C9, counterexample: a forecast-day count of 0 lies outside [1, 16],
yet the fetch is not rejected — one network request carrying
`forecast_days = 0` is issued and the call returns the upstream payload. -/
theorem fetch_accepts_out_of_range_days :
    (0 : ℤ) < 1 ∧ fetch_weather_open_meteo 0 net_ok = (Except.ok 0, [0]) :=
  ⟨by norm_num, rfl⟩

/-- Claim C9 as amended: the fetcher performs no validation of the
forecast-day count — also for values outside [1, 16] it issues at least one
network request, every issued request carrying the given value verbatim;
out-of-range rejection is left entirely to the upstream API. -/
theorem fetch_no_days_validation (days : ℤ) (net : ℕ → Attempt)
    (h : days < 1 ∨ 16 < days) :
    (fetch_weather_open_meteo days net).2 ≠ []
      ∧ ∀ d ∈ (fetch_weather_open_meteo days net).2, d = days := by
  rw [fetch_weather_cases]
  cases h1 : session_get net 0 4 with
  | mk r1 j =>
      have hj : 0 < j := by
        have := session_get_next_pos net 4 0 (by omega)
        rw [h1] at this
        simpa using this
      cases r1 with
      | ok v =>
          dsimp only
          refine ⟨?_, ?_⟩
          · intro hnil
            have := congrArg List.length hnil
            simp at this
            omega
          · intro d hd
            exact List.eq_of_mem_replicate hd
      | error f =>
          dsimp only
          cases h2 : session_get net j 4 with
          | mk r2 k =>
              have hk : j < k := by
                have := session_get_next_pos net 4 j (by omega)
                rw [h2] at this
                simpa using this
              dsimp only
              refine ⟨?_, ?_⟩
              · intro hnil
                have := congrArg List.length hnil
                simp at this
                omega
              · intro d hd
                exact List.eq_of_mem_replicate hd

/-- Witness for claim C9 at the concrete out-of-range count 0. -/
theorem fetch_no_days_validation_witness :
    (fetch_weather_open_meteo 0 net_ok).2 ≠ []
      ∧ ∀ d ∈ (fetch_weather_open_meteo 0 net_ok).2, d = 0 :=
  fetch_no_days_validation 0 net_ok (Or.inl (by norm_num))

/-!  ## Claim C4  -/

/-- Claim C4, counterexample: the per-city mean averages a local-hour-3
(nighttime) row together with a local-hour-12 (daytime) row — the result
175/2 differs from the daytime-only mean 75, so rows outside the [7, 22]
window do contribute and no daytime filter is applied. -/
theorem night_rows_contribute :
    spec_local_hour night_row.time = 3
      ∧ ¬ 7 ≤ spec_local_hour night_row.time
      ∧ 7 ≤ spec_local_hour day_row.time ∧ spec_local_hour day_row.time ≤ 22
      ∧ calculate_city_comfort_index [night_row, day_row] = 175 / 2
      ∧ row_score day_row = 75
      ∧ (175 / 2 : ℚ) ≠ 75 := by
  refine ⟨by decide, by decide, by decide, by decide, ?_, ?_, by norm_num⟩
  · norm_num [calculate_city_comfort_index, night_row, day_row, row_score,
      calculate_comfort_index, temp_score, humidity_score, wind_score, precip_score,
      cloud_score]
    simp
  · norm_num [day_row, row_score, calculate_comfort_index, temp_score, humidity_score,
      wind_score, precip_score, cloud_score]

/-- Claim C4 as amended: every cleaned row contributes to the per-city mean
comfort score regardless of its timestamp — the mean is invariant under
arbitrary rewriting of each row's `time` field, so no local-hour window
(and in particular no [7, 22] daytime restriction) is applied. -/
theorem city_mean_time_invariant (rows : List CleanedRow) (f : String → String) :
    calculate_city_comfort_index (rows.map fun r => { r with time := f r.time })
      = calculate_city_comfort_index rows := by
  unfold calculate_city_comfort_index
  have hnil : (rows.map fun r => { r with time := f r.time }) = [] ↔ rows = [] := by
    simp
  by_cases h : rows = []
  · subst h; simp
  · have hsum : ((rows.map fun r => { r with time := f r.time }).map row_score)
        = rows.map row_score := by
      rw [List.map_map]
      rfl
    rw [if_neg (fun hh => h (hnil.mp hh)), if_neg h, hsum, List.length_map]

/-- Witness for claim C2 at a concrete humidity inside the optimal band. -/
theorem factor_scores_bucketed_witness : humidity_score 45 = 25 :=
  (factor_scores_bucketed 45 0 0 0).1.mpr (by norm_num)

/-- Witness for claim C3 at a concrete temperature inside the optimal band. -/
theorem temp_score_month_independent_buckets_witness : temp_score 20 = 25 :=
  (temp_score_month_independent_buckets 20).1.mpr (by norm_num)
